import Mathlib

/-!
# Verification of `pycontroldae.core.simulator`

A shallow embedding of `src/pycontroldae/core/simulator.py` (the `Simulator`
class): construction checks, `run`'s t_span validation and error wrapping,
initial-condition / parameter map construction, probe-data extraction, and
the event-to-callback bridge.  Numeric values are modelled as rationals
(no claim here depends on floating-point rounding); qualified variable and
parameter names are strings, exactly as the Python/Julia code manipulates
them.
-/

namespace PyControlDAE

/-! ## Name conversions

The simulator converts between Python-style dotted qualified names
(`module.state`) and the Julia engine's symbol form (`module₊state`,
unknowns additionally carrying a `(t)` suffix).  These mirror the
`replace` calls in `simulator.py` (lines 199-202, 218-219, 394, 529, 598).
-/

/-- Left-to-right, non-overlapping replacement of `pat` by `rep` in a
character list, with an explicit fuel argument for structural recursion
(the fuel is always instantiated with the input length, which suffices
because each step consumes at least one character).  This is the semantics
of Python `str.replace` and Julia `replace` for the nonempty patterns used
by the simulator. -/
def replaceListAux (pat rep : List Char) : Nat → List Char → List Char
  | 0, s => s
  | _ + 1, [] => []
  | fuel + 1, c :: rest =>
      if pat.isPrefixOf (c :: rest) then
        rep ++ replaceListAux pat rep fuel (List.drop pat.length (c :: rest))
      else
        c :: replaceListAux pat rep fuel rest

/-- Replacement of every occurrence of `pat` by `rep` in `s` (an empty
pattern leaves the string unchanged; the simulator only ever replaces the
nonempty patterns `"."`, `"₊"`, `"(t)"`). -/
def strReplace (s pat rep : String) : String :=
  if pat.data = [] then s
  else ⟨replaceListAux pat.data rep.data s.data.length s.data⟩

/-- `replace(param_name, "." => "₊")` — Python dotted name to Julia symbol
form (simulator.py lines 394, 529, 598). -/
def pyToJuliaName (s : String) : String := strReplace s "." "₊"

/-- `replace(replace(var_str, "(t)" => ""), "₊" => ".")` — a Julia unknown's
printed form to the Python dotted name (build_u0_code, lines 199-202). -/
def juliaVarToPyName (s : String) : String :=
  strReplace (strReplace s "(t)" "") "₊" "."

/-- `replace(param_str, "₊" => ".")` — a Julia parameter's printed form to
the Python dotted name (build_params_code, lines 218-219). -/
def juliaParamToPyName (s : String) : String := strReplace s "₊" "."

/-- `replace(string(v), "(t)" => "")` — strip the time-dependence suffix
from a Julia unknown (probe extraction, lines 409-410). -/
def stripT (s : String) : String := strReplace s "(t)" ""

/-! ## Data model

`Module`, `System`, the event classes and `DataProbe` live in modules of
this package that are not part of the verified sources (`module.py`,
`system.py`, `events.py`, `result.py`); the fields used by `simulator.py`
are modelled from the spec's data-model section (§3). -/

/-- Modelled from the spec: a leaf `Module` (§3), restricted to the fields
`simulator.py` reads — `name`, the ordered state map `_states`
(name → initial value) and the ordered parameter map `_params`. -/
structure Module where
  name : String
  states : List (String × ℚ)
  params : List (String × ℚ)

/-- Modelled from the spec: a component of the module forest — either a
leaf `Module` or a `CompositeModule` (§3, §4.3) holding its sub-components. -/
inductive Component where
  | leaf : Module → Component
  | composite : String → List Component → Component

/-- The `name` attribute of a component. -/
def Component.cname : Component → String
  | .leaf m => m.name
  | .composite n _ => n

mutual

/-- Modelled from the spec: the `_states` map of a built component.  A leaf
module's map holds its locally declared states; `CompositeModule.build`
"folds every descendant's equations/states/params under its namespaced
path" (§4.3), i.e. each sub-component's entries reappear prefixed by that
sub-component's name and a dot. -/
def Component.builtStates : Component → List (String × ℚ)
  | .leaf m => m.states
  | .composite _ subs => Component.builtStatesList subs

/-- The concatenated, name-prefixed state maps of a list of sub-components
(the recursive fold of `Component.builtStates` over `submodules`). -/
def Component.builtStatesList : List Component → List (String × ℚ)
  | [] => []
  | s :: rest =>
      (s.builtStates.map fun kv => (s.cname ++ "." ++ kv.1, kv.2)) ++
        Component.builtStatesList rest

end

mutual

/-- Modelled from the spec: the `_params` map of a built component, folded
exactly like `builtStates` (§4.3). -/
def Component.builtParams : Component → List (String × ℚ)
  | .leaf m => m.params
  | .composite _ subs => Component.builtParamsList subs

/-- The concatenated, name-prefixed parameter maps of a list of
sub-components. -/
def Component.builtParamsList : List Component → List (String × ℚ)
  | [] => []
  | s :: rest =>
      (s.builtParams.map fun kv => (s.cname ++ "." ++ kv.1, kv.2)) ++
        Component.builtParamsList rest

end

/-- The reduced model handle cached by `System.compile()`: the engine's
reduced unknowns, reduced parameters and observed/eliminated variables,
each in the engine's printed symbol form (unknowns such as `"m₊x(t)"`,
parameters such as `"m₊k"`). -/
structure CompiledSystem where
  unknowns : List String
  params : List String
  observed : List String

/-- Modelled from the spec: a `TimeEvent` (§3) — a scheduled callback
returning a qualified-parameter-name → value mapping.  The integrator
handle is abstracted to its reduced parameter store. -/
structure TimeEvent where
  time : ℚ
  callback : List (String × ℚ) → List (String × ℚ)

/-- Modelled from the spec: a `ContinuousEvent` (§3) — a continuously
evaluated condition, an affect returning a parameter mapping, and a
crossing direction encoded `0` (both), `+1` (rising), `-1` (falling). -/
structure ContinuousEvent where
  condition : List ℚ → ℚ → List (String × ℚ) → ℚ
  affect : List (String × ℚ) → List (String × ℚ)
  direction : Int

/-- An entry of `System._events`: `simulator.py` distinguishes exactly
`TimeEvent` and `ContinuousEvent` instances (lines 469-477). -/
inductive Event where
  | time : TimeEvent → Event
  | cont : ContinuousEvent → Event

/-- Modelled from the spec: the `System` fields read by `simulator.py` —
`name`, `_modules`, `_events` and the nullable `_compiled_system` handle. -/
structure System where
  name : String
  modules : List Component
  events : List Event
  compiledSystem : Option CompiledSystem

/-- Modelled from the spec: a `DataProbe` (§3) — parallel ordered lists of
qualified variable names and display names. -/
structure DataProbe where
  «variables» : List String
  names : List String

/-! ## Initial-condition and parameter map construction

`Simulator.run`, lines 154-228: the Python-side default dictionaries built
from module declarations when `u0`/`params` are omitted, and the Julia-side
`_u0_map`/`_params_map` built by matching each reduced unknown/parameter
against the dictionary, with fallbacks `0.0` and `1.0`. -/

/-- `run` lines 155-161: with `u0 = None`, `u0_dict[f"{module.name}.{state_name}"]
= default_val` for every module and every entry of its `_states`. -/
def defaultU0Dict (modules : List Component) : List (String × ℚ) :=
  modules.flatMap fun m =>
    m.builtStates.map fun kv => (m.cname ++ "." ++ kv.1, kv.2)

/-- `run` lines 166-171: with `params = None`, the same construction over
each module's `_params`. -/
def defaultParamsDict (modules : List Component) : List (String × ℚ) :=
  modules.flatMap fun m =>
    m.builtParams.map fun kv => (m.cname ++ "." ++ kv.1, kv.2)

/-- `build_u0_code` (run lines 195-211): for every reduced unknown, take the
dictionary value under its Python-style name when present, else `0.0`. -/
def buildU0Map (unknowns : List String) (u0Dict : List (String × ℚ)) :
    List (String × ℚ) :=
  unknowns.map fun var =>
    match List.lookup (juliaVarToPyName var) u0Dict with
    | some value => (var, value)
    | none => (var, 0)

/-- `build_params_code` (run lines 214-228): for every reduced parameter,
take the dictionary value under its Python-style name when present, else
`1.0`. -/
def buildParamsMap (params : List String) (paramsDict : List (String × ℚ)) :
    List (String × ℚ) :=
  params.map fun param =>
    match List.lookup (juliaParamToPyName param) paramsDict with
    | some value => (param, value)
    | none => (param, 1)

/-! ## Probe-data extraction

`Simulator._extract_probe_data` (lines 357-442).  For each probe variable
the method `seval`s a generated Julia snippet: it searches
`vcat(unknowns(sys), [])` — note the literal empty second argument — for a
variable whose `(t)`-stripped printed form equals the probe name with `.`
replaced by `₊`; a hit yields `[_sol[target_var, i] for i in 1:length(_sol.t)]`,
a miss yields `zeros(length(_sol.t))`.  The snippet is total: an
unresolvable name takes the `zeros` branch, it does not throw.  The Python
`except` branch (lines 434-438) — one printed warning and a NaN-filled
column — is reached only when the bridge call itself raises, which is
independent of name resolution and is modelled by the `bridgeFault`
argument. -/

/-- The engine's solution object: the saved time points `_sol.t` and, for
each resolvable variable symbol, its value at each saved index
(`_sol[target_var, i]`). -/
structure Solution where
  t : List ℚ
  value : String → Nat → ℚ

/-- Lines 404-414 of the generated snippet: scan `vcat(unknowns(sys), [])`
for the first variable whose `(t)`-stripped printed form equals the
requested Julia-form name.  The two disjuncts of the Julia `if` are
syntactically distinct but semantically identical (the first additionally
"replaces" `₊` by `₊`), and are both kept here. -/
def findTargetVar (unknowns : List String) (juliaVarName : String) :
    Option String :=
  (unknowns ++ []).find? fun v =>
    stripT v == juliaVarName || stripT v == juliaVarName

/-- Lines 393-423: the series the generated snippet stores in
`_probe_values` for one probe variable — the solution series of the matched
unknown, or `zeros(length(_sol.t))` when no unknown matches. -/
def extractVarSeries (unknowns : List String) (sol : Solution)
    (varName : String) : List ℚ :=
  match findTargetVar unknowns (pyToJuliaName varName) with
  | some v => (List.range sol.t.length).map (sol.value v)
  | none => List.replicate sol.t.length 0

/-- One probe column as stored in `probe_vars[custom_name]`: a numeric
series from the happy path, or the NaN fill `np.full(len(times), nan)`
produced by the `except` branch (recorded with its length). -/
inductive ProbeColumn where
  | series : List ℚ → ProbeColumn
  | missingNaN : Nat → ProbeColumn
deriving DecidableEq

/-- The length of a stored probe column. -/
def ProbeColumn.size : ProbeColumn → Nat
  | .series vs => vs.length
  | .missingNaN n => n

/-- Lines 391-438, one iteration of the `zip(probe.variables, probe.names)`
loop: on a bridge fault the `except` branch prints one warning and fills
the column with NaN; otherwise the generated snippet's series is stored and
no warning is printed.  Returns the column and the number of warnings
printed. -/
def extractProbeVar (unknowns : List String) (sol : Solution)
    (bridgeFault : Bool) (varName : String) : ProbeColumn × Nat :=
  if bridgeFault then (ProbeColumn.missingNaN sol.t.length, 1)
  else (ProbeColumn.series (extractVarSeries unknowns sol varName), 0)

/-- Lines 388-440 for a single probe: the ordered `probe_vars` mapping
`custom_name ↦ column` over `zip(probe.variables, probe.names)`. -/
def extractProbeData (unknowns : List String) (sol : Solution)
    (bridgeFault : String → Bool) (probe : DataProbe) :
    List (String × ProbeColumn) :=
  (probe.variables.zip probe.names).map fun vn =>
    (vn.2, (extractProbeVar unknowns sol (bridgeFault vn.1) vn.1).1)

/-- The number of warnings printed while extracting a single probe. -/
def probeWarnings (unknowns : List String) (sol : Solution)
    (bridgeFault : String → Bool) (probe : DataProbe) : Nat :=
  ((probe.variables.zip probe.names).map fun vn =>
    (extractProbeVar unknowns sol (bridgeFault vn.1) vn.1).2).sum

/-! ## The event-to-callback bridge

`Simulator._build_callbacks` / `_build_time_callback` /
`_build_continuous_callback` (lines 444-631). -/

/-- Engine-side assignment `integrator.ps[param_sym] = new_value`: succeeds
exactly when `param_sym` is a parameter of the reduced system, updating the
store in place; for a symbol eliminated during reduction it throws (spec
§4.5(c)), modelled as `none`. -/
def setParam (ps : List (String × ℚ)) (paramSym : String) (newValue : ℚ) :
    Option (List (String × ℚ)) :=
  if (ps.map Prod.fst).contains paramSym then
    some (ps.map fun kv => if kv.1 = paramSym then (paramSym, newValue) else kv)
  else none

/-- The Julia affect loop shared verbatim by `_build_time_callback`
(lines 527-538) and `_build_continuous_callback` (lines 596-607): for each
`(param_name, new_value)` of the returned mapping, convert the name to the
engine symbol form and try the assignment; a failure is caught, emits one
`@warn`, and the loop continues with the remaining entries.  Returns the
final parameter store and the number of warnings emitted. -/
def applyParamUpdates (ps : List (String × ℚ)) :
    List (String × ℚ) → List (String × ℚ) × Nat
  | [] => (ps, 0)
  | kv :: rest =>
      match setParam ps (pyToJuliaName kv.1) kv.2 with
      | some ps2 => applyParamUpdates ps2 rest
      | none =>
          let r := applyParamUpdates ps rest
          (r.1, r.2 + 1)

/-- Lines 614-619: the `direction → rootfind` translation of
`_build_continuous_callback`. -/
def rootfindStr (direction : Int) : String :=
  if direction = 0 then "SciMLBase.RightRootFind"
  else if direction = 1 then "SciMLBase.LeftRootFind"
  else "SciMLBase.RightRootFind"

/-- The engine-facing configuration of one `ContinuousCallback`
(lines 578-629): the generated condition and affect function names and the
`rootfind` argument — the only place `direction` enters. -/
structure ContinuousCallbackConfig where
  conditionFn : String
  affectFn : String
  rootfind : String
deriving DecidableEq

/-- `_build_continuous_callback` (lines 554-631) as the callback
configuration it installs for event number `idx`. -/
def buildContinuousCallbackConfig (systemName : String) (idx : Nat)
    (direction : Int) : ContinuousCallbackConfig :=
  { conditionFn := "_condition_" ++ systemName ++ "_" ++ toString idx
  , affectFn := "_affect_" ++ systemName ++ "_" ++ toString idx
  , rootfind := rootfindStr direction }

/-- The Julia variable name returned for event number `idx`:
`_build_time_callback` returns `_time_callback_{system}_{idx}` (line 498),
`_build_continuous_callback` returns `_continuous_callback_{system}_{idx}`
(line 571). -/
def callbackName (systemName : String) (idx : Nat) : Event → String
  | .time _ => "_time_callback_" ++ systemName ++ "_" ++ toString idx
  | .cont _ => "_continuous_callback_" ++ systemName ++ "_" ++ toString idx

/-- `_build_callbacks` (lines 444-479): `for idx, event in enumerate(events)`,
appending the per-event callback variable name. -/
def buildCallbacks (events : List Event) (systemName : String) : List String :=
  events.enum.map fun ie => callbackName systemName ie.1 ie.2

/-- Lines 250-253: the names are joined in list order into
`CallbackSet(...)`. -/
def callbackSetExpr (callbackNames : List String) : String :=
  "CallbackSet(" ++ String.intercalate ", " callbackNames ++ ")"

/-! ## Simulator construction

`Simulator.__init__` (lines 42-64). -/

/-- The errors `Simulator.__init__` can raise. -/
inductive InitError where
  | typeError : String → InitError
  | runtimeError : String → InitError

/-- The constructor argument: a `System` instance or some other Python
object, carrying only its printed type (all `__init__` reads of a
non-`System` argument). -/
inductive PyObject where
  | system : System → PyObject
  | other : String → PyObject

/-- The state a successfully constructed `Simulator` holds (line 63:
`self.system = system`). -/
structure Simulator where
  system : System

/-- `Simulator.__init__` (lines 42-64): `TypeError` for a non-`System`
argument, `RuntimeError` when `system._compiled_system is None`, otherwise
the simulator storing the given system. -/
def simulatorInit : PyObject → Except InitError Simulator
  | .other typeName =>
      .error (.typeError ("Expected System instance, got " ++ typeName))
  | .system s =>
      match s.compiledSystem with
      | none =>
          .error (.runtimeError ("System '" ++ s.name ++
            "' has not been compiled yet. Call system.compile() before creating a Simulator."))
      | some _ => .ok { system := s }

/-! ## `Simulator.run`

Lines 66-355.  The engine interaction is a sequence of `seval` commands; we
record them as an explicit trace.  The fallible part of the engine
interaction (problem construction / solving / conversion) is abstracted by
a `solveResult : Except String Solution` input — the text is the `str(e)`
of whatever exception the bridge raises. -/

/-- The `seval` commands `run` issues, in source order (lines 141-330). -/
inductive EngineCmd where
  | storeSystem : String → EngineCmd
  | getUnknowns : EngineCmd
  | getParams : EngineCmd
  | setU0DictEntry : String → ℚ → EngineCmd
  | setParamsDictEntry : String → ℚ → EngineCmd
  | buildU0MapCmd : EngineCmd
  | buildParamsMapCmd : EngineCmd
  | mergeMapsCmd : EngineCmd
  | createODEProblem : List (String × ℚ) → ℚ → ℚ → EngineCmd
  | defineCallback : String → EngineCmd
  | combineCallbackSet : List String → EngineCmd
  | solveCmd : String → Bool → Option ℚ → EngineCmd
deriving DecidableEq

/-- The errors `run` raises: `ValueError` from t_span validation
(lines 134-137) and `RuntimeError` wrapping any exception of the `try`
block (lines 351-355). -/
inductive RunError where
  | valueError : String → RunError
  | runtimeError : String → RunError
deriving DecidableEq

/-- The message of the `RuntimeError` raised at lines 352-354. -/
def simulateFailureMsg (systemName errText : String) : String :=
  "Failed to simulate system '" ++ systemName ++ "': " ++ errText ++
    "\nCheck that initial conditions and parameters are correctly specified."

/-- The `probes` argument of `run`: a single `DataProbe`, a list, or a
name-keyed dict (normalized at lines 376-384). -/
inductive ProbesArg where
  | one : DataProbe → ProbesArg
  | list : List DataProbe → ProbesArg
  | dict : List (String × DataProbe) → ProbesArg

/-- Lines 376-384 of `_extract_probe_data`: normalization of the `probes`
argument to a name-keyed collection. -/
def normalizeProbes : ProbesArg → List (String × DataProbe)
  | .one p => [("default", p)]
  | .list ps => ps.enum.map fun ip => ("probe_" ++ toString ip.1, ip.2)
  | .dict d => d

/-- The `SimulationResult` payload assembled at lines 289-346 (metadata
elided): saved times, the state-value matrix, the Python-style state names
and the extracted probe data. -/
structure SimResult where
  times : List ℚ
  values : List (List ℚ)
  stateNames : List String
  probeData : List (String × List (String × ProbeColumn))

/-- The matrix `sol.u` the engine returns alongside the times. -/
structure EngineOutput where
  sol : Solution
  u : List (List ℚ)

/-- The body of `run`'s `try` block (lines 141-349): build the dictionaries
(from the explicit arguments or the module defaults), the Julia-side maps,
the problem, the callbacks, solve, and extract states and probes.  Returns
the outcome together with the trace of engine commands issued. -/
def runBody (sys : System) (compiled : CompiledSystem)
    (solveResult : Except String EngineOutput) (t0 t1 : ℚ)
    (u0 params : Option (List (String × ℚ))) (dt : Option ℚ)
    (solver : String) (probes : Option ProbesArg)
    (bridgeFault : String → Bool) :
    Except String SimResult × List EngineCmd :=
  let u0Dict := match u0 with
    | none => defaultU0Dict sys.modules
    | some d => d
  let paramsDict := match params with
    | none => defaultParamsDict sys.modules
    | some d => d
  let u0Map := buildU0Map compiled.unknowns u0Dict
  let paramsMap := buildParamsMap compiled.params paramsDict
  let combinedMap := u0Map ++ paramsMap
  let cbNames := if sys.events.isEmpty then []
    else buildCallbacks sys.events sys.name
  let cmds : List EngineCmd :=
    [.storeSystem sys.name, .getUnknowns, .getParams]
      ++ u0Dict.map (fun kv => .setU0DictEntry kv.1 kv.2)
      ++ paramsDict.map (fun kv => .setParamsDictEntry kv.1 kv.2)
      ++ [.buildU0MapCmd, .buildParamsMapCmd, .mergeMapsCmd,
          .createODEProblem combinedMap t0 t1]
      ++ cbNames.map .defineCallback
      ++ (if cbNames.isEmpty then [] else [.combineCallbackSet cbNames])
      ++ [.solveCmd solver (!cbNames.isEmpty) dt]
  match solveResult with
  | .error e => (.error e, cmds)
  | .ok out =>
      let stateNames := compiled.unknowns.map juliaVarToPyName
      let probeData := match probes with
        | none => []
        | some pa =>
            (normalizeProbes pa).map fun np =>
              (np.1, extractProbeData compiled.unknowns out.sol bridgeFault np.2)
      (.ok { times := out.sol.t, values := out.u,
             stateNames := stateNames, probeData := probeData }, cmds)

/-- `Simulator.run` (lines 66-355): validate `t_span` before anything else
(lines 134-137), then run the `try` block, wrapping any failure into the
`RuntimeError` of lines 351-355.  The second component is the trace of
engine commands issued by the call. -/
def runSim (sys : System) (compiled : CompiledSystem)
    (solveResult : Except String EngineOutput) (tSpan : List ℚ)
    (u0 params : Option (List (String × ℚ))) (dt : Option ℚ)
    (solver : String) (probes : Option ProbesArg)
    (bridgeFault : String → Bool) :
    Except RunError SimResult × List EngineCmd :=
  match tSpan with
  | [t0, t1] =>
      if t0 ≥ t1 then
        (.error (.valueError "t_start must be less than t_end"), [])
      else
        match runBody sys compiled solveResult t0 t1 u0 params dt solver
            probes bridgeFault with
        | (.ok r, cmds) => (.ok r, cmds)
        | (.error e, cmds) =>
            (.error (.runtimeError (simulateFailureMsg sys.name e)), cmds)
  | _ => (.error (.valueError "t_span must be a tuple of (t_start, t_end)"), [])

/-! ## Theorems -/

/-- C9: `Simulator(system)` raises `TypeError` for every non-`System`
argument, raises a `RuntimeError` naming the system whenever the compiled
handle is `None`, and for every compiled system succeeds and stores exactly
that system, unmodified. -/
theorem simulatorInit_spec :
    (∀ typeName, simulatorInit (PyObject.other typeName) =
      Except.error (InitError.typeError
        ("Expected System instance, got " ++ typeName))) ∧
    (∀ s : System, s.compiledSystem = none →
      simulatorInit (PyObject.system s) =
        Except.error (InitError.runtimeError ("System '" ++ s.name ++
          "' has not been compiled yet. Call system.compile() before creating a Simulator."))) ∧
    (∀ (s : System) (h : CompiledSystem), s.compiledSystem = some h →
      simulatorInit (PyObject.system s) = Except.ok { system := s }) := by
  refine ⟨fun t => rfl, fun s hs => ?_, fun s h hs => ?_⟩ <;>
    simp [simulatorInit, hs]

/-- Witness for C9 at concrete inputs: a compiled system is stored as-is,
an uncompiled system's error names it, a non-`System` argument is a
`TypeError`. -/
theorem simulatorInit_spec_witness :
    simulatorInit (PyObject.system ⟨"plant", [], [], some ⟨[], [], []⟩⟩) =
      Except.ok { system := ⟨"plant", [], [], some ⟨[], [], []⟩⟩ } ∧
    simulatorInit (PyObject.system ⟨"plant", [], [], none⟩) =
      Except.error (InitError.runtimeError ("System '" ++ "plant" ++
        "' has not been compiled yet. Call system.compile() before creating a Simulator.")) ∧
    simulatorInit (PyObject.other "<class 'int'>") =
      Except.error (InitError.typeError
        ("Expected System instance, got " ++ "<class 'int'>")) :=
  ⟨simulatorInit_spec.2.2 ⟨"plant", [], [], some ⟨[], [], []⟩⟩ ⟨[], [], []⟩ rfl,
   simulatorInit_spec.2.1 ⟨"plant", [], [], none⟩ rfl,
   simulatorInit_spec.1 "<class 'int'>"⟩

/-- C5 (refuted as stated): the three `direction` values do **not** produce
three distinct engine callback configurations — `direction = -1` (falling)
and `direction = 0` (both) are translated to the identical
`ContinuousCallback` configuration, because both map to
`SciMLBase.RightRootFind` and `direction` influences nothing but the
`rootfind` argument (lines 612-629). -/
theorem continuousCallback_direction_collapse :
    buildContinuousCallbackConfig "sys" 0 (-1) =
      buildContinuousCallbackConfig "sys" 0 0 ∧
    rootfindStr (-1) = "SciMLBase.RightRootFind" ∧
    rootfindStr 0 = "SciMLBase.RightRootFind" ∧
    rootfindStr 1 = "SciMLBase.LeftRootFind" := by
  decide

/-- C2 (refuted as stated): probe extraction searches `vcat(unknowns, [])`
only — the observed/eliminated set is never consulted — so an eliminated
variable (`osc.y`, present in the observed list as `osc₊y(t)`) yields the
zero-filled fallback series even though adding the observed list to the
search would have resolved it. -/
theorem probe_observed_not_resolved :
    extractVarSeries ["osc₊x(t)", "osc₊v(t)"]
      { t := [0, 1, 2], value := fun v i => if v = "osc₊x(t)" then i else 2 * i }
      "osc.y" = [0, 0, 0] ∧
    extractProbeData ["osc₊x(t)", "osc₊v(t)"]
      { t := [0, 1, 2], value := fun v i => if v = "osc₊x(t)" then i else 2 * i }
      (fun _ => false) ⟨["osc.y"], ["y"]⟩ =
      [("y", ProbeColumn.series [0, 0, 0])] ∧
    findTargetVar (["osc₊x(t)", "osc₊v(t)"] ++ ["osc₊y(t)"])
      (pyToJuliaName "osc.y") = some "osc₊y(t)" := by
  refine ⟨rfl, rfl, rfl⟩

/-- C1 counterexample: in a two-variable probe batch where `bogus.z`
resolves in neither the unknowns nor the observed set, extraction prints
**zero** warnings — not the claimed single warning — and the bad name's
column is an ordinary zero-filled series, not an explicitly-flagged missing
column; the valid column is fully populated. -/
theorem probe_missing_name_counterexample :
    probeWarnings ["osc₊x(t)"]
        { t := [0, 1, 2], value := fun _ i => ([1, 2, 3] : List ℚ).getD i 0 }
        (fun _ => false) ⟨["osc.x", "bogus.z"], ["x", "z"]⟩ ≠ 1 ∧
    extractProbeData ["osc₊x(t)"]
        { t := [0, 1, 2], value := fun _ i => ([1, 2, 3] : List ℚ).getD i 0 }
        (fun _ => false) ⟨["osc.x", "bogus.z"], ["x", "z"]⟩ =
      [("x", ProbeColumn.series [1, 2, 3]),
       ("z", ProbeColumn.series [0, 0, 0])] := by
  constructor
  · have h0 : probeWarnings ["osc₊x(t)"]
        { t := [0, 1, 2], value := fun _ i => ([1, 2, 3] : List ℚ).getD i 0 }
        (fun _ => false) ⟨["osc.x", "bogus.z"], ["x", "z"]⟩ = 0 := rfl
    omega
  · rfl

/-- Every series the generated extraction snippet produces has exactly one
entry per saved time point, whether or not the name resolved. -/
theorem extractVarSeries_length (unknowns : List String) (sol : Solution)
    (varName : String) :
    (extractVarSeries unknowns sol varName).length = sol.t.length := by
  unfold extractVarSeries
  cases h : findTargetVar unknowns (pyToJuliaName varName) <;> simp

/-- C1 (amended): on the nominal path a probe variable name that resolves
in neither set does not raise and does not abort the batch — every probe
variable still receives a column of full saved-time length — but the
unresolvable name's column is silently filled with zeros and **no** warning
is printed; a resolvable sibling's column carries its actual solution
series.  (The NaN-flagged missing column with a single warning arises only
from a bridge-level exception, which name resolution never causes.) -/
theorem probe_missing_name_amended :
    ∀ (unknowns : List String) (sol : Solution) (probe : DataProbe),
      probeWarnings unknowns sol (fun _ => false) probe = 0 ∧
      (extractProbeData unknowns sol (fun _ => false) probe).length =
        (probe.variables.zip probe.names).length ∧
      (∀ e ∈ extractProbeData unknowns sol (fun _ => false) probe,
        e.2.size = sol.t.length) ∧
      (∀ (i : ℕ) (v d : String),
        (probe.variables.zip probe.names)[i]? = some (v, d) →
        (findTargetVar unknowns (pyToJuliaName v) = none →
          (extractProbeData unknowns sol (fun _ => false) probe)[i]? =
            some (d, ProbeColumn.series (List.replicate sol.t.length 0))) ∧
        (∀ (w : String), findTargetVar unknowns (pyToJuliaName v) = some w →
          (extractProbeData unknowns sol (fun _ => false) probe)[i]? =
            some (d, ProbeColumn.series
              ((List.range sol.t.length).map (sol.value w))))) := by
  intro unknowns sol probe
  refine ⟨?_, ?_, ?_, ?_⟩
  · simp [probeWarnings, extractProbeVar]
  · simp [extractProbeData]
  · intro e he
    simp only [extractProbeData, List.mem_map] at he
    obtain ⟨vn, -, rfl⟩ := he
    simp [extractProbeVar, ProbeColumn.size, extractVarSeries_length]
  · intro i v d hi
    have hdata : (extractProbeData unknowns sol (fun _ => false) probe)[i]? =
        ((probe.variables.zip probe.names)[i]?).map
          (fun vn => (vn.2, (extractProbeVar unknowns sol false vn.1).1)) := by
      simp [extractProbeData, List.getElem?_map]
    rw [hi] at hdata
    constructor
    · intro hnone
      rw [hdata]
      simp [extractProbeVar, extractVarSeries, hnone]
    · intro w hw
      rw [hdata]
      simp [extractProbeVar, extractVarSeries, hw]

/-- Witness for C1 (amended) at a concrete batch: one valid and one invalid
name; zero warnings, both columns present, the invalid one zero-filled and
the valid one carrying the solution series. -/
theorem probe_missing_name_amended_witness :
    probeWarnings ["osc₊v(t)"]
        { t := [0, 1], value := fun _ i => ([4, 5] : List ℚ).getD i 0 }
        (fun _ => false) ⟨["osc.v", "typo.q"], ["v", "q"]⟩ = 0 ∧
    (extractProbeData ["osc₊v(t)"]
        { t := [0, 1], value := fun _ i => ([4, 5] : List ℚ).getD i 0 }
        (fun _ => false) ⟨["osc.v", "typo.q"], ["v", "q"]⟩)[1]? =
      some ("q", ProbeColumn.series (List.replicate 2 0)) ∧
    (extractProbeData ["osc₊v(t)"]
        { t := [0, 1], value := fun _ i => ([4, 5] : List ℚ).getD i 0 }
        (fun _ => false) ⟨["osc.v", "typo.q"], ["v", "q"]⟩)[0]? =
      some ("v", ProbeColumn.series ((List.range 2).map
        (fun i => ([4, 5] : List ℚ).getD i 0))) := by
  refine ⟨(probe_missing_name_amended _ _ _).1, ?_, ?_⟩
  · exact ((probe_missing_name_amended ["osc₊v(t)"]
      { t := [0, 1], value := fun _ i => ([4, 5] : List ℚ).getD i 0 }
      ⟨["osc.v", "typo.q"], ["v", "q"]⟩).2.2.2 1 "typo.q" "q" rfl).1 rfl
  · exact ((probe_missing_name_amended ["osc₊v(t)"]
      { t := [0, 1], value := fun _ i => ([4, 5] : List ℚ).getD i 0 }
      ⟨["osc.v", "typo.q"], ["v", "q"]⟩).2.2.2 0 "osc.v" "v" rfl).2
      "osc₊v(t)" rfl

/-- C3: with explicitly supplied `u0` and `params` dictionaries, every
reduced unknown whose Python-style name is absent from the `u0` dictionary
is silently assigned `0.0` and every reduced parameter absent from the
`params` dictionary is silently assigned `1.0`; the construction covers
every unknown and parameter and completes without error, and the resulting
combined map is what `run` passes to `ODEProblem`. -/
theorem run_unspecified_name_defaults :
    ∀ (unknownsL paramsL : List String) (u0d pd : List (String × ℚ))
      (v p : String),
      v ∈ unknownsL → List.lookup (juliaVarToPyName v) u0d = none →
      p ∈ paramsL → List.lookup (juliaParamToPyName p) pd = none →
      (v, (0 : ℚ)) ∈ buildU0Map unknownsL u0d ∧
      (p, (1 : ℚ)) ∈ buildParamsMap paramsL pd ∧
      (buildU0Map unknownsL u0d).length = unknownsL.length ∧
      (buildParamsMap paramsL pd).length = paramsL.length ∧
      (∀ (sys : System) (so : List String)
        (solveResult : Except String EngineOutput) (t0 t1 : ℚ)
        (dt : Option ℚ) (solver : String) (probes : Option ProbesArg)
        (bridgeFault : String → Bool),
        EngineCmd.createODEProblem
            (buildU0Map unknownsL u0d ++ buildParamsMap paramsL pd) t0 t1 ∈
          (runBody sys ⟨unknownsL, paramsL, so⟩ solveResult t0 t1
            (some u0d) (some pd) dt solver probes bridgeFault).2) := by
  intro unknownsL paramsL u0d pd v p hv hlv hp hlp
  refine ⟨?_, ?_, ?_, ?_, ?_⟩
  · exact List.mem_map.mpr ⟨v, hv, by simp [hlv]⟩
  · exact List.mem_map.mpr ⟨p, hp, by simp [hlp]⟩
  · simp [buildU0Map]
  · simp [buildParamsMap]
  · intro sys so solveResult t0 t1 dt solver probes bridgeFault
    cases solveResult <;> simp [runBody, List.mem_append]

/-- Witness for C3: a concrete run in which `m.y` is missing from the
explicit `u0` map and `m.k` from the explicit `params` map. -/
theorem run_unspecified_name_defaults_witness :
    ("m₊y(t)", (0 : ℚ)) ∈ buildU0Map ["m₊x(t)", "m₊y(t)"] [("m.x", 5)] ∧
    ("m₊k", (1 : ℚ)) ∈ buildParamsMap ["m₊k"] [] := by
  have h := run_unspecified_name_defaults ["m₊x(t)", "m₊y(t)"] ["m₊k"]
    [("m.x", 5)] [] "m₊y(t)" "m₊k" (by decide) (by decide) (by decide)
    (by decide)
  exact ⟨h.1, h.2.1⟩

/-- C6: `_build_callbacks` maps the registered event list position-by-
position — the i-th registered event yields the i-th callback name handed
to `CallbackSet`, so same-instant events fire in registration order. -/
theorem run_callbacks_registration_order :
    ∀ (events : List Event) (systemName : String),
      (buildCallbacks events systemName).length = events.length ∧
      (∀ i : Nat, (buildCallbacks events systemName)[i]? =
        (events[i]?).map (callbackName systemName i)) ∧
      (∀ (mods : List Component) (cs : Option CompiledSystem)
        (compiled : CompiledSystem)
        (solveResult : Except String EngineOutput) (t0 t1 : ℚ)
        (u0 params : Option (List (String × ℚ))) (dt : Option ℚ)
        (solver : String) (probes : Option ProbesArg)
        (fault : String → Bool),
        events ≠ [] →
        EngineCmd.combineCallbackSet (buildCallbacks events systemName) ∈
          (runBody ⟨systemName, mods, events, cs⟩ compiled solveResult t0 t1
            u0 params dt solver probes fault).2) := by
  intro events systemName
  refine ⟨by simp [buildCallbacks], ?_, ?_⟩
  · intro i
    cases h : events[i]? <;>
      simp [buildCallbacks, List.getElem?_map, List.getElem?_enum, h]
  · intro mods cs compiled solveResult t0 t1 u0 params dt solver probes
      fault hne
    have he : events.isEmpty = false := by
      cases events with
      | nil => exact absurd rfl hne
      | cons a l => rfl
    have hcb : (buildCallbacks events systemName).isEmpty = false := by
      cases events with
      | nil => exact absurd rfl hne
      | cons a l => rfl
    cases solveResult <;>
      simp [runBody, he, hcb, List.mem_append]

/-- Witness for C6's run-level part: a two-event system (one time event,
one continuous event) hands `CallbackSet` its callbacks in registration
order. -/
theorem run_callbacks_registration_order_witness :
    EngineCmd.combineCallbackSet
        (buildCallbacks [Event.time ⟨5, fun _ => []⟩,
          Event.cont ⟨fun _ _ _ => 0, fun _ => [], 1⟩] "s") ∈
      (runBody ⟨"s", [], [Event.time ⟨5, fun _ => []⟩,
          Event.cont ⟨fun _ _ _ => 0, fun _ => [], 1⟩], none⟩ ⟨[], [], []⟩
        (Except.error "x") 0 1 none none none "Rodas5" none
        (fun _ => false)).2 ∧
    buildCallbacks [Event.time ⟨5, fun _ => []⟩,
        Event.cont ⟨fun _ _ _ => 0, fun _ => [], 1⟩] "s" =
      ["_time_callback_s_0", "_continuous_callback_s_1"] :=
  ⟨(run_callbacks_registration_order
      [Event.time ⟨5, fun _ => []⟩,
        Event.cont ⟨fun _ _ _ => 0, fun _ => [], 1⟩] "s").2.2
    [] none ⟨[], [], []⟩ (Except.error "x") 0 1 none none none "Rodas5"
    none (fun _ => false) (by simp),
   rfl⟩

/-- A successful engine parameter assignment never changes the set (or
order) of stored parameter keys. -/
theorem setParam_keys {ps ps2 : List (String × ℚ)} {k : String} {v : ℚ}
    (h : setParam ps k v = some ps2) :
    ps2.map Prod.fst = ps.map Prod.fst := by
  unfold setParam at h
  split at h
  · injection h with h2
    subst h2
    rw [List.map_map]
    have hf : (Prod.fst ∘ fun kv : String × ℚ =>
        if kv.1 = k then (k, v) else kv) = Prod.fst := by
      funext kv
      by_cases hk : kv.1 = k <;> simp [hk]
    rw [hf]
  · cases h

/-- The engine assignment fails exactly for keys outside the reduced
parameter set. -/
theorem setParam_eq_none {ps : List (String × ℚ)} {k : String} {v : ℚ} :
    setParam ps k v = none ↔ (ps.map Prod.fst).contains k = false := by
  unfold setParam
  split <;> simp_all

/-- The parameter store keys survive a whole update loop. -/
theorem applyParamUpdates_keys :
    ∀ (updates ps : List (String × ℚ)),
      (applyParamUpdates ps updates).1.map Prod.fst = ps.map Prod.fst := by
  intro updates
  induction updates with
  | nil => intro ps; rfl
  | cons kv rest ih =>
    intro ps
    cases h : setParam ps (pyToJuliaName kv.1) kv.2 with
    | some ps2 =>
      simp only [applyParamUpdates, h]
      exact (ih ps2).trans (setParam_keys h)
    | none =>
      simp only [applyParamUpdates, h]
      exact ih ps

/-- The update loop warns exactly once per entry whose translated key is
absent from the reduced parameter set. -/
theorem applyParamUpdates_warnings :
    ∀ (updates ps : List (String × ℚ)),
      (applyParamUpdates ps updates).2 =
        (updates.filter fun kv =>
          !((ps.map Prod.fst).contains (pyToJuliaName kv.1))).length := by
  intro updates
  induction updates with
  | nil => intro ps; rfl
  | cons kv rest ih =>
    intro ps
    cases h : setParam ps (pyToJuliaName kv.1) kv.2 with
    | some ps2 =>
      have hk : (ps.map Prod.fst).contains (pyToJuliaName kv.1) = true := by
        by_contra hc
        rw [setParam_eq_none.mpr (Bool.eq_false_iff.mpr hc)] at h
        cases h
      simp only [applyParamUpdates, h]
      rw [ih ps2, setParam_keys h, List.filter_cons, hk]
      simp
    | none =>
      have hk : (ps.map Prod.fst).contains (pyToJuliaName kv.1) = false :=
        setParam_eq_none.mp h
      simp only [applyParamUpdates, h]
      rw [ih ps, List.filter_cons, hk]
      simp

/-- Skipping a missing key is exactly that: the final store is the one the
loop would produce from the valid entries alone. -/
theorem applyParamUpdates_filter :
    ∀ (updates ps : List (String × ℚ)),
      (applyParamUpdates ps updates).1 =
        (applyParamUpdates ps (updates.filter fun kv =>
          (ps.map Prod.fst).contains (pyToJuliaName kv.1))).1 := by
  intro updates
  induction updates with
  | nil => intro ps; rfl
  | cons kv rest ih =>
    intro ps
    cases h : setParam ps (pyToJuliaName kv.1) kv.2 with
    | some ps2 =>
      have hk : (ps.map Prod.fst).contains (pyToJuliaName kv.1) = true := by
        by_contra hc
        rw [setParam_eq_none.mpr (Bool.eq_false_iff.mpr hc)] at h
        cases h
      rw [List.filter_cons]
      simp only [hk, if_pos]
      simp only [applyParamUpdates, h]
      rw [ih ps2, setParam_keys h]
    | none =>
      have hk : (ps.map Prod.fst).contains (pyToJuliaName kv.1) = false :=
        setParam_eq_none.mp h
      rw [List.filter_cons]
      simp only [hk, Bool.false_eq_true, if_neg, not_false_iff]
      simp only [applyParamUpdates, h]
      exact ih ps

/-- C4: for every event callback's returned mapping, an entry whose
translated parameter name is absent from the reduced system is skipped with
exactly one warning per occurrence, the remaining entries of the same
mapping are still applied, and the loop always completes (it never fails
and never drops a stored parameter). -/
theorem event_missing_param_skipped :
    ∀ (ps updates : List (String × ℚ)),
      (applyParamUpdates ps updates).1.map Prod.fst = ps.map Prod.fst ∧
      (applyParamUpdates ps updates).2 =
        (updates.filter fun kv =>
          !((ps.map Prod.fst).contains (pyToJuliaName kv.1))).length ∧
      (applyParamUpdates ps updates).1 =
        (applyParamUpdates ps (updates.filter fun kv =>
          (ps.map Prod.fst).contains (pyToJuliaName kv.1))).1 ∧
      (∀ (k : String) (v : ℚ),
        (ps.map Prod.fst).contains (pyToJuliaName k) = true →
        (applyParamUpdates ps [(k, v)]).1 = ps.map (fun kv =>
          if kv.1 = pyToJuliaName k then (pyToJuliaName k, v) else kv) ∧
        (applyParamUpdates ps [(k, v)]).2 = 0) := by
  intro ps updates
  refine ⟨applyParamUpdates_keys updates ps,
    applyParamUpdates_warnings updates ps,
    applyParamUpdates_filter updates ps, ?_⟩
  intro k v hk
  have h2 : setParam ps (pyToJuliaName k) v =
      some (ps.map fun kv =>
        if kv.1 = pyToJuliaName k then (pyToJuliaName k, v) else kv) := by
    unfold setParam
    rw [if_pos hk]
  constructor
  · simp [applyParamUpdates, h2]
  · simp [applyParamUpdates, h2]

/-- Witness for C4 at a concrete mapping `{"gone.p": 9, "ctrl.K": 7}`
against the reduced parameter store `{ctrl₊K: 2}`: the missing key warns
once and is skipped, and the sibling `ctrl.K` is still applied. -/
theorem event_missing_param_skipped_witness :
    (applyParamUpdates [("ctrl₊K", 2)] [("ctrl.K", 7)]).1 =
      [("ctrl₊K", (2 : ℚ))].map (fun kv =>
        if kv.1 = pyToJuliaName "ctrl.K" then (pyToJuliaName "ctrl.K", 7)
        else kv) ∧
    (applyParamUpdates [("ctrl₊K", 2)] [("ctrl.K", 7)]).2 = 0 ∧
    (applyParamUpdates [("ctrl₊K", 2)] [("gone.p", 9), ("ctrl.K", 7)]).2 =
      ([(("gone.p" : String), (9 : ℚ)), ("ctrl.K", 7)].filter fun kv =>
        !(([("ctrl₊K", (2 : ℚ))].map Prod.fst).contains
          (pyToJuliaName kv.1))).length := by
  refine ⟨?_, ?_, ?_⟩
  · exact ((event_missing_param_skipped [("ctrl₊K", 2)] []).2.2.2 "ctrl.K" 7
      (by decide)).1
  · exact ((event_missing_param_skipped [("ctrl₊K", 2)] []).2.2.2 "ctrl.K" 7
      (by decide)).2
  · exact (event_missing_param_skipped [("ctrl₊K", 2)]
      [("gone.p", 9), ("ctrl.K", 7)]).2.1

/-- C8: every failure inside `run`'s engine-interaction block surfaces as a
`RuntimeError` whose message contains the system's name and the original
failure text verbatim. -/
theorem run_engine_failure_wrapped :
    ∀ (sys : System) (compiled : CompiledSystem) (e : String) (t0 t1 : ℚ)
      (u0 params : Option (List (String × ℚ))) (dt : Option ℚ)
      (solver : String) (probes : Option ProbesArg)
      (fault : String → Bool),
      t0 < t1 →
      ∃ cmds, runSim sys compiled (Except.error e) [t0, t1] u0 params dt
          solver probes fault =
        (Except.error (RunError.runtimeError
          ("Failed to simulate system '" ++ sys.name ++ "': " ++ e ++
            "\nCheck that initial conditions and parameters are correctly specified.")),
         cmds) := by
  intro sys compiled e t0 t1 u0 params dt solver probes fault hlt
  refine ⟨(runBody sys compiled (Except.error e) t0 t1 u0 params dt solver
    probes fault).2, ?_⟩
  simp only [runSim]
  rw [if_neg (not_le.mpr hlt)]
  simp [runBody, simulateFailureMsg]

/-- Witness for C8: a concrete diverging solve is reported as a
`RuntimeError` naming the system and quoting the engine's text. -/
theorem run_engine_failure_wrapped_witness :
    ∃ cmds, runSim ⟨"plant", [], [], none⟩ ⟨[], [], []⟩
        (Except.error "DomainError: Rodas5 diverged") [0, 1] none none none
        "Rodas5" none (fun _ => false) =
      (Except.error (RunError.runtimeError
        ("Failed to simulate system '" ++ "plant" ++ "': " ++
          "DomainError: Rodas5 diverged" ++
          "\nCheck that initial conditions and parameters are correctly specified.")),
       cmds) :=
  run_engine_failure_wrapped ⟨"plant", [], [], none⟩ ⟨[], [], []⟩
    "DomainError: Rodas5 diverged" 0 1 none none none "Rodas5" none
    (fun _ => false) (by norm_num)

/-- C10: `run` validates `t_span` before any engine interaction — for a
span without exactly two endpoints or with `t_start ≥ t_end` it returns a
`ValueError`, issues no engine command at all (in particular no solver
problem is created), and its outcome is independent of every other
argument. -/
theorem run_invalid_tspan_atomic :
    ∀ (sys : System) (compiled : CompiledSystem)
      (solveResult : Except String EngineOutput) (tSpan : List ℚ)
      (u0 params : Option (List (String × ℚ))) (dt : Option ℚ)
      (solver : String) (probes : Option ProbesArg)
      (fault : String → Bool),
      (tSpan.length ≠ 2 ∨ ∃ t0 t1 : ℚ, tSpan = [t0, t1] ∧ t0 ≥ t1) →
      (∃ msg, runSim sys compiled solveResult tSpan u0 params dt solver
          probes fault =
        (Except.error (RunError.valueError msg), ([] : List EngineCmd))) ∧
      (∀ (compiled' : CompiledSystem)
        (solveResult' : Except String EngineOutput)
        (u0' params' : Option (List (String × ℚ))) (dt' : Option ℚ)
        (solver' : String) (probes' : Option ProbesArg)
        (fault' : String → Bool),
        runSim sys compiled solveResult tSpan u0 params dt solver probes
          fault =
        runSim sys compiled' solveResult' tSpan u0' params' dt' solver'
          probes' fault') := by
  intro sys compiled solveResult tSpan u0 params dt solver probes fault h
  match tSpan, h with
  | [], _ => exact ⟨⟨_, rfl⟩, fun _ _ _ _ _ _ _ _ => rfl⟩
  | [_], _ => exact ⟨⟨_, rfl⟩, fun _ _ _ _ _ _ _ _ => rfl⟩
  | _ :: _ :: _ :: _, _ =>
      exact ⟨⟨_, rfl⟩, fun _ _ _ _ _ _ _ _ => rfl⟩
  | [t0, t1], h =>
      have hge : t0 ≥ t1 := by
        rcases h with h | ⟨a, b, hab, hge⟩
        · simp at h
        · cases hab
          exact hge
      refine ⟨⟨"t_start must be less than t_end", ?_⟩,
        fun _ _ _ _ _ _ _ _ => ?_⟩ <;>
        simp [runSim, if_pos hge]

/-- Witness for C10: `t_span = (1, 0)` yields a `ValueError` with an empty
engine-command trace. -/
theorem run_invalid_tspan_atomic_witness :
    ∃ msg, runSim ⟨"s", [], [], none⟩ ⟨[], [], []⟩ (Except.error "x")
        [1, 0] none none none "Rodas5" none (fun _ => false) =
      (Except.error (RunError.valueError msg), ([] : List EngineCmd)) :=
  (run_invalid_tspan_atomic ⟨"s", [], [], none⟩ ⟨[], [], []⟩
    (Except.error "x") [1, 0] none none none "Rodas5" none (fun _ => false)
    (Or.inr ⟨1, 0, rfl, by norm_num⟩)).1

/-- C7: with `u0` (respectively `params`) omitted, the default
initial-condition (respectively parameter) map keys each module's declared
state (respectively parameter) defaults by the fully qualified dotted name:
every declared state `s ↦ v` (parameter `p ↦ v`) of a leaf module anywhere
in the top-level forest appears as `module.s ↦ v` (`module.p ↦ v`), and
under composites `c1.c2` as `c1.c2.m.s ↦ v` (`c1.c2.m.p ↦ v`) — in
particular a state `x` of module `m` nested under composites `c1.c2`
receives its declared default under exactly the key `c1.c2.m.x`. -/
theorem run_default_u0_qualified_names :
    (∀ v : ℚ, defaultU0Dict [Component.composite "c1" [Component.composite "c2"
        [Component.leaf ⟨"m", [("x", v)], []⟩]]] = [("c1.c2.m.x", v)]) ∧
    (∀ (c1 c2 m x : String) (v : ℚ),
      defaultU0Dict [Component.composite c1 [Component.composite c2
        [Component.leaf ⟨m, [(x, v)], []⟩]]] =
        [(c1 ++ "." ++ (c2 ++ "." ++ (m ++ "." ++ x)), v)]) ∧
    (∀ v : ℚ, defaultParamsDict [Component.composite "c1"
        [Component.composite "c2" [Component.leaf ⟨"m", [], [("k", v)]⟩]]] =
        [("c1.c2.m.k", v)]) ∧
    (∀ (c1 c2 m k : String) (v : ℚ),
      defaultParamsDict [Component.composite c1 [Component.composite c2
        [Component.leaf ⟨m, [], [(k, v)]⟩]]] =
        [(c1 ++ "." ++ (c2 ++ "." ++ (m ++ "." ++ k)), v)]) ∧
    (∀ (pre post : List Component) (m : Module) (s : String) (v : ℚ),
      (s, v) ∈ m.states →
      (m.name ++ "." ++ s, v) ∈
        defaultU0Dict (pre ++ Component.leaf m :: post)) ∧
    (∀ (pre post : List Component) (m : Module) (p : String) (v : ℚ),
      (p, v) ∈ m.params →
      (m.name ++ "." ++ p, v) ∈
        defaultParamsDict (pre ++ Component.leaf m :: post)) ∧
    (∀ (c1 c2 : String) (m : Module) (s : String) (v : ℚ),
      (s, v) ∈ m.states →
      (c1 ++ "." ++ (c2 ++ "." ++ (m.name ++ "." ++ s)), v) ∈
        defaultU0Dict [Component.composite c1
          [Component.composite c2 [Component.leaf m]]]) ∧
    (∀ (c1 c2 : String) (m : Module) (p : String) (v : ℚ),
      (p, v) ∈ m.params →
      (c1 ++ "." ++ (c2 ++ "." ++ (m.name ++ "." ++ p)), v) ∈
        defaultParamsDict [Component.composite c1
          [Component.composite c2 [Component.leaf m]]]) := by
  refine ⟨fun v => rfl, fun c1 c2 m x v => rfl, fun v => rfl,
    fun c1 c2 m k v => rfl, ?_, ?_, ?_, ?_⟩
  · intro pre post m s v hs
    exact List.mem_flatMap.mpr ⟨Component.leaf m, by simp,
      List.mem_map.mpr ⟨(s, v), hs, rfl⟩⟩
  · intro pre post m p v hp
    exact List.mem_flatMap.mpr ⟨Component.leaf m, by simp,
      List.mem_map.mpr ⟨(p, v), hp, rfl⟩⟩
  · intro c1 c2 m s v hs
    have h1 : (m.name ++ "." ++ s, v) ∈
        m.states.map (fun kv => (m.name ++ "." ++ kv.1, kv.2)) :=
      List.mem_map.mpr ⟨(s, v), hs, rfl⟩
    refine List.mem_flatMap.mpr
      ⟨Component.composite c1 [Component.composite c2 [Component.leaf m]],
        by simp, ?_⟩
    simp only [Component.builtStates, Component.builtStatesList,
      List.append_nil, Component.cname]
    exact List.mem_map.mpr ⟨(c2 ++ "." ++ (m.name ++ "." ++ s), v),
      List.mem_map.mpr ⟨(m.name ++ "." ++ s, v), h1, rfl⟩, rfl⟩
  · intro c1 c2 m p v hp
    have h1 : (m.name ++ "." ++ p, v) ∈
        m.params.map (fun kv => (m.name ++ "." ++ kv.1, kv.2)) :=
      List.mem_map.mpr ⟨(p, v), hp, rfl⟩
    refine List.mem_flatMap.mpr
      ⟨Component.composite c1 [Component.composite c2 [Component.leaf m]],
        by simp, ?_⟩
    simp only [Component.builtParams, Component.builtParamsList,
      List.append_nil, Component.cname]
    exact List.mem_map.mpr ⟨(c2 ++ "." ++ (m.name ++ "." ++ p), v),
      List.mem_map.mpr ⟨(m.name ++ "." ++ p, v), h1, rfl⟩, rfl⟩

/-- Witness for C7 at a concrete module `m` with state `x ↦ 2` and
parameter `k ↦ 3`, both at top level and nested under `c1.c2`. -/
theorem run_default_u0_qualified_names_witness :
    (("m" ++ "." ++ "x", (2 : ℚ)) ∈
      defaultU0Dict [Component.leaf ⟨"m", [("x", 2)], [("k", 3)]⟩]) ∧
    (("m" ++ "." ++ "k", (3 : ℚ)) ∈
      defaultParamsDict [Component.leaf ⟨"m", [("x", 2)], [("k", 3)]⟩]) ∧
    (("c1" ++ "." ++ ("c2" ++ "." ++ ("m" ++ "." ++ "x")), (2 : ℚ)) ∈
      defaultU0Dict [Component.composite "c1" [Component.composite "c2"
        [Component.leaf ⟨"m", [("x", 2)], [("k", 3)]⟩]]]) ∧
    (("c1" ++ "." ++ ("c2" ++ "." ++ ("m" ++ "." ++ "k")), (3 : ℚ)) ∈
      defaultParamsDict [Component.composite "c1" [Component.composite "c2"
        [Component.leaf ⟨"m", [("x", 2)], [("k", 3)]⟩]]]) :=
  ⟨run_default_u0_qualified_names.2.2.2.2.1 [] []
      ⟨"m", [("x", 2)], [("k", 3)]⟩ "x" 2 (by simp),
   run_default_u0_qualified_names.2.2.2.2.2.1 [] []
      ⟨"m", [("x", 2)], [("k", 3)]⟩ "k" 3 (by simp),
   run_default_u0_qualified_names.2.2.2.2.2.2.1 "c1" "c2"
      ⟨"m", [("x", 2)], [("k", 3)]⟩ "x" 2 (by simp),
   run_default_u0_qualified_names.2.2.2.2.2.2.2 "c1" "c2"
      ⟨"m", [("x", 2)], [("k", 3)]⟩ "k" 3 (by simp)⟩

end PyControlDAE
